import Mathlib

/-!
Verification development for the phospho analytics backend.

Shallow embedding of:
- the MongoDB aggregation pipelines built in
  backend/app/services/mongo/metadata.py (pipelines are embedded as
  explicit BSON-like document values, and the post-aggregation Python
  logic as Lean functions);
- the route handlers of backend/app/api/platform/endpoints/events.py,
  projects.py, explore.py and backend/app/api/v2/endpoints/embeddings.py
  (external calls such as the database, the auth provider, the billing
  provider and the AI hub are passed in as parameters; the externally
  visible effects of a handler are collected in an explicit effect list);
- the client SDK class phospho/tasks.py.
-/

namespace Phospho

/-- BSON-like values, used to embed MongoDB aggregation pipelines as data.
A document is a list of key/value pairs (insertion ordered, as in Python
dicts and BSON). -/
inductive BVal where
  | str : String → BVal
  | int : Int → BVal
  | bool : Bool → BVal
  | null : BVal
  | doc : List (String × BVal) → BVal
  | arr : List BVal → BVal

/-- A MongoDB aggregation pipeline: a list of stages, each stage a
one-key document. -/
abbrev Pipeline := List BVal

/-- An HTTPException raised by a handler: status code and detail string. -/
abbrev HErr := Nat × String

/-- Python str.lower (and pandas .str.lower()), character by
character. -/
def pyLower (s : String) : String := String.mk (s.toList.map Char.toLower)

/-- Python str.strip (and pandas .str.strip()): drop whitespace from
both ends. -/
def pyStrip (s : String) : String :=
  String.mk
    (((s.toList.dropWhile Char.isWhitespace).reverse.dropWhile
        Char.isWhitespace).reverse)

/-- Python str.split(sep) for a one-character separator. -/
def pySplit (s : String) (sep : Char) : List String :=
  (s.toList.splitOn sep).map (fun l => String.mk l)

/-! ## metadata.py: aggregation pipeline builders -/

/-- Pipeline of calculate_average_for_metadata (metadata.py lines 34-43). -/
def calculate_average_for_metadata_pipeline
    (project_id metadata_field : String) : Pipeline :=
  [ .doc [("$match", .doc
      [ ("project_id", .str project_id),
        ("metadata." ++ metadata_field, .doc [("$exists", .bool true)]) ])],
    .doc [("$group", .doc
      [ ("_id", .str ("$metadata." ++ metadata_field)),
        ("count", .doc [("$sum", .int 1)]) ])],
    .doc [("$group", .doc
      [ ("_id", .null),
        ("average", .doc [("$avg", .str "$count")]) ])] ]

/-- Pipeline of calculate_top10_percent (metadata.py lines 58-74). -/
def calculate_top10_percent_pipeline
    (project_id metadata_field : String) : Pipeline :=
  [ .doc [("$match", .doc [("project_id", .str project_id)])],
    .doc [("$match", .doc
      [ ("metadata." ++ metadata_field, .doc [("$exists", .bool true)]) ])],
    .doc [("$group", .doc
      [ ("_id", .str ("$metadata." ++ metadata_field)),
        ("metadataValueCount", .doc [("$sum", .int 1)]) ])],
    .doc [("$sort", .doc [("metadataValueCount", .int (-1))])],
    .doc [("$facet", .doc
      [ ("totalKeyCount", .arr [.doc [("$count", .str "count")]]),
        ("sortedData", .arr [.doc [("$match", .doc [])]]) ])] ]

/-- The collection calculate_top10_percent aggregates over:
mongo_db[collection_name] (metadata.py line 77). -/
def calculate_top10_percent_collection (collection_name : String) : String :=
  collection_name

/-- Pipeline of calculate_bottom10_percent (metadata.py lines 110-121).
Note: the $group stage uses the fixed key "$metadata.user_id", not the
metadata_field argument. -/
def calculate_bottom10_percent_pipeline
    (project_id metadata_field : String) : Pipeline :=
  [ .doc [("$match", .doc [("project_id", .str project_id)])],
    .doc [("$match", .doc
      [ ("metadata." ++ metadata_field, .doc [("$exists", .bool true)]) ])],
    .doc [("$group", .doc
      [ ("_id", .str "$metadata.user_id"),
        ("metadataValueCount", .doc [("$sum", .int 1)]) ])],
    .doc [("$sort", .doc [("metadataValueCount", .int 1)])],
    .doc [("$facet", .doc
      [ ("totalMetadataKeyCount", .arr [.doc [("$count", .str "count")]]),
        ("sortedData", .arr [.doc [("$match", .doc [])]]) ])] ]

/-- The collection calculate_bottom10_percent aggregates over: the code
runs mongo_db["tasks"].aggregate(...) (metadata.py line 124), ignoring
the collection_name argument. -/
def calculate_bottom10_percent_collection (collection_name : String) : String :=
  "tasks"

/-- The group key (value of _id in the $group stage) of a pipeline, if a
$group stage is present. Extracts the first $group stage. -/
def groupKeyOf : Pipeline → Option BVal
  | [] => none
  | .doc [("$group", .doc (("_id", v) :: _))] :: _ => some v
  | _ :: rest => groupKeyOf rest

/-- The metadata type filter argument of
_build_unique_metadata_fields_pipeline: Literal["number", "string"]. -/
inductive MetadataType where
  | number : MetadataType
  | string : MetadataType
deriving DecidableEq

/-- Pipeline of _build_unique_metadata_fields_pipeline
(metadata.py lines 319-356). -/
def build_unique_metadata_fields_pipeline
    (project_id : String) (type : MetadataType) : Pipeline :=
  [ .doc [("$match", .doc
      [ ("project_id", .str project_id),
        ("$and", .arr
          [ .doc [("metadata", .doc [("$exists", .bool true)])],
            .doc [("metadata", .doc [("$ne", .doc [])])] ]) ])],
    .doc [("$project", .doc
      [ ("metadata_keys", .doc [("$objectToArray", .str "$metadata")]) ])],
    .doc [("$unwind", .str "$metadata_keys")] ] ++
  (match type with
   | .number =>
     [ .doc [("$match", .doc
         [ ("$expr", .doc [("$eq", .arr
             [ .doc [("$isNumber", .str "$metadata_keys.v")],
               .bool true ])]) ])] ]
   | .string =>
     [ .doc [("$match", .doc
         [ ("$expr", .doc [("$eq", .arr
             [ .doc [("$type", .str "$metadata_keys.v")],
               .str "string" ])]) ])] ])

/-- The reusable $reduce expression that deduplicates an array of
documents by a key field, written out literally in metadata.py (lines
241-288) and again in breakdown_by_sum_of_metadata_field (lines 480-506):
fold over the input, appending the element only when its key is not
already among the keys of the accumulated value. -/
def dedupReduceExpr (input key : String) : BVal :=
  .doc [("$reduce", .doc
    [ ("input", .str input),
      ("initialValue", .arr []),
      ("in", .doc [("$concatArrays", .arr
        [ .str "$$value",
          .doc [("$cond", .arr
            [ .doc [("$in", .arr
                [ .str ("$$this." ++ key),
                  .str ("$$value." ++ key) ])],
              .arr [],
              .arr [.str "$$this"] ])] ])]) ])]

/-- Pipeline of fetch_user_metadata (metadata.py lines 170-307): the
user metadata rollup. -/
def fetch_user_metadata_pipeline
    (project_id : String) (user_id : Option String) : Pipeline :=
  (match user_id with
   | some uid =>
     [ .doc [("$match", .doc
         [ ("project_id", .str project_id),
           ("metadata.user_id", .str uid) ])] ]
   | none =>
     [ .doc [("$match", .doc
         [ ("project_id", .str project_id),
           ("metadata.user_id", .doc [("$ne", .null)]) ])] ]) ++
  [ .doc [("$set", .doc
      [ ("is_success", .doc [("$cond", .arr
          [ .doc [("$eq", .arr [.str "$flag", .str "success"])],
            .int 1, .int 0 ])]),
        ("metadata.total_tokens", .doc [("$cond", .arr
          [ .doc [("$eq", .arr
              [ .doc [("$type", .str "$metadata.total_tokens")],
                .str "missing" ])],
            .int 0,
            .str "$metadata.total_tokens" ])]) ])],
    .doc [("$group", .doc
      [ ("_id", .str "$metadata.user_id"),
        ("nb_tasks", .doc [("$sum", .int 1)]),
        ("avg_success_rate", .doc [("$avg", .doc [("$toInt", .str "$is_success")])]),
        ("tasks", .doc [("$push", .str "$$ROOT")]),
        ("total_tokens", .doc [("$sum", .str "$metadata.total_tokens")]),
        ("events", .doc [("$push", .str "$events")]) ])],
    .doc [("$lookup", .doc
      [ ("from", .str "sessions"),
        ("localField", .str "tasks.session_id"),
        ("foreignField", .str "id"),
        ("as", .str "sessions") ])],
    .doc [("$set", .doc
      [ ("events", .doc [("$reduce", .doc
          [ ("input", .str "$events"),
            ("initialValue", .arr []),
            ("in", .doc [("$setUnion", .arr [.str "$$value", .str "$$this"])]) ])]) ])],
    .doc [("$addFields", .doc
      [ ("events", .doc [("$ifNull", .arr [.str "$events", .arr []])]),
        ("sessions", .doc [("$ifNull", .arr [.str "$sessions", .arr []])]) ])],
    .doc [("$addFields", .doc
      [ ("events", dedupReduceExpr "$events" "event_name"),
        ("sessions", dedupReduceExpr "$sessions" "id") ])],
    .doc [("$project", .doc
      [ ("user_id", .str "$_id"),
        ("nb_tasks", .int 1),
        ("avg_success_rate", .int 1),
        ("avg_session_length", .doc [("$avg", .str "$sessions.session_length")]),
        ("events", .int 1),
        ("tasks_id", .str "$tasks.id"),
        ("sessions", .int 1),
        ("total_tokens", .int 1) ])],
    .doc [("$sort", .doc [("user_id", .int 1)])] ]

/-- A pipeline whose first stage is a $match filter that constrains the
owning project id. -/
def firstStageMatchesProject (pipeline : Pipeline) (project_id : String) : Prop :=
  ∃ f, pipeline.head? = some (BVal.doc [("$match", BVal.doc f)]) ∧
    ("project_id", BVal.str project_id) ∈ f

/-! ## metadata.py: breakdown_by_sum_of_metadata_field -/

/-- The fields of phospho.models.ProjectDataFilters that
breakdown_by_sum_of_metadata_field reads (created_at_start/end as UNIX
timestamps). -/
structure ProjectDataFilters where
  created_at_start : Option Int
  created_at_end : Option Int
deriving DecidableEq

/-- The main_filter dict of breakdown_by_sum_of_metadata_field
(metadata.py lines 462-471): project_id plus the optional created_at
range (the second assignment merges into the created_at entry). -/
def breakdownMainFilter (project_id : String) (filters : ProjectDataFilters) :
    List (String × BVal) :=
  [("project_id", .str project_id)] ++
  (match filters.created_at_start, filters.created_at_end with
   | none, none => []
   | some s, none => [("created_at", .doc [("$gte", .int s)])]
   | none, some e => [("created_at", .doc [("$lte", .int e)])]
   | some s, some e => [("created_at", .doc [("$gte", .int s), ("$lte", .int e)])])

/-- breakdown_by_col (metadata.py lines 454-459). When breakdown_by is
Python None, later f-string interpolation renders it as "None"; the
$project stage would then use the None object as a dict key, which we
render as the string "None" as well. -/
def breakdownByCol (breakdown_by : Option String)
    (category_metadata_fields : List String) : String :=
  match breakdown_by with
  | some s =>
    if s ∈ category_metadata_fields then "metadata." ++ s
    else if s = "None" then "id"
    else s
  | none => "None"

/-- The dict key that breakdown_by is rendered as in the final $project
stage. -/
def breakdownByKey (breakdown_by : Option String) : String :=
  match breakdown_by with
  | some s => s
  | none => "None"

/-- The final value of breakdown_by_col after the reassignments of
metadata.py lines 514 and 518: "events.event_name" when breaking down
by event name, "task_position" when breaking down by task position,
else the initially computed column. -/
def breakdownFinalCol (breakdown_by : Option String)
    (category_metadata_fields : List String) : String :=
  if breakdown_by = some "task_position" then "task_position"
  else if breakdown_by = some "event_name" then "events.event_name"
  else breakdownByCol breakdown_by category_metadata_fields

/-- The defaulting of the filters argument (metadata.py lines 451-452):
a missing filter set means an empty ProjectDataFilters. -/
def effectiveFilters (filters0 : Option ProjectDataFilters) : ProjectDataFilters :=
  match filters0 with
  | none => ProjectDataFilters.mk none none
  | some f => f

/-- Model of breakdown_by_sum_of_metadata_field (metadata.py lines
438-637).  The database is abstracted as dbEval, mapping an aggregation
pipeline to the full list of result documents; .to_list(length=200)
truncates that list to its first 200 elements.  The returned pair is
(the pipeline as built when the HTTPException was raised or the
aggregation ran, the HTTP outcome).  The awaited external call
compute_task_position (line 517) only updates the database in place and
is not modelled. -/
def breakdown_by_sum_of_metadata_field
    (project_id metric metadata_field : String)
    (number_metadata_fields category_metadata_fields : List String)
    (breakdown_by : Option String)
    (filters0 : Option ProjectDataFilters)
    (dbEval : Pipeline → List BVal) :
    Pipeline × Except HErr (List BVal) :=
  let filters := effectiveFilters filters0
  let p0 : Pipeline :=
    [.doc [("$match", .doc (breakdownMainFilter project_id filters))]]
  -- breakdown_by == "event_name": dedup events, unwind, drop removed
  let p1 := p0 ++
    (if breakdown_by = some "event_name" then
      [ .doc [("$addFields", .doc
          [("events", dedupReduceExpr "$events" "event_name")])],
        .doc [("$unwind", .str "$events")],
        .doc [("$match", .doc [("events.removed", .doc [("$ne", .bool true)])])] ]
     else [])
  let col := breakdownFinalCol breakdown_by category_metadata_fields
  let lower := pyLower metric
  let p2 := p1 ++
    (if lower = "nb tasks" then
      [ .doc [("$group", .doc
          [ ("_id", .str ("$" ++ col)),
            (metric, .doc [("$sum", .int 1)]) ])] ]
     else [])
  let p3 := p2 ++
    (if lower = "avg success rate" then
      [ .doc [("$match", .doc [("flag", .doc [("$exists", .bool true)])])],
        .doc [("$set", .doc
          [ ("is_success", .doc [("$cond", .arr
              [ .doc [("$eq", .arr [.str "$flag", .str "success"])],
                .int 1, .int 0 ])]) ])],
        .doc [("$group", .doc
          [ ("_id", .str ("$" ++ col)),
            (metric, .doc [("$avg", .str "$is_success")]) ])] ]
     else [])
  let p4 := p3 ++
    (if lower = "avg session length" then
      [ .doc [("$lookup", .doc
          [ ("from", .str "sessions"),
            ("localField", .str "session_id"),
            ("foreignField", .str "id"),
            ("as", .str "session") ])],
        .doc [("$addFields", .doc
          [ ("session", .doc [("$ifNull", .arr [.str "$session", .arr []])]) ])],
        .doc [("$unwind", .str "$session")],
        .doc [("$group", .doc
          [ ("_id", .str ("$" ++ col)),
            (metric, .doc [("$avg", .str "$session.session_length")]) ])] ]
     else [])
  if lower = "sum" ∧ metadata_field ∉ number_metadata_fields then
    (p4, .error (400,
      "Metric \x27sum\x27 is only supported for number metadata fields"))
  else if lower = "avg" ∧ metadata_field ∉ number_metadata_fields then
    (p4, .error (400,
      "Metric \x27avg\x27 is only supported for number metadata fields"))
  else
    let p5 := p4 ++
      (if lower = "sum" then
        [ .doc [("$match", .doc
            [("metadata." ++ metadata_field, .doc [("$exists", .bool true)])])],
          .doc [("$group", .doc
            [ ("_id", .str ("$" ++ col)),
              (metric ++ metadata_field, .doc
                [("$sum", .str ("$metadata." ++ metadata_field))]) ])] ]
       else [])
    let p6 := p5 ++
      (if lower = "avg" then
        [ .doc [("$match", .doc
            [("metadata." ++ metadata_field, .doc [("$exists", .bool true)])])],
          .doc [("$group", .doc
            [ ("_id", .str ("$" ++ col)),
              (metric ++ metadata_field, .doc
                [("$avg", .str ("$metadata." ++ metadata_field))]) ])] ]
       else [])
    let p7 := p6 ++
      [ .doc [("$match", .doc [("_id", .doc [("$ne", .null)])])],
        .doc [("$project", .doc
          [ (breakdownByKey breakdown_by, .str "$_id"),
            (metric, .int 1),
            (metric ++ metadata_field, .int 1),
            ("_id", .int 0) ])] ]
    let p8 := p7 ++
      [ if breakdown_by = some "task_position" then
          .doc [("$sort", .doc [(breakdownByKey breakdown_by, .int 1)])]
        else
          .doc [("$sort", .doc
            [ (metric ++ metadata_field, .int (-1)), (metric, .int (-1)) ])] ]
    (p8, .ok ((dbEval p8).take 200))

/-- The result rows surfaced by breakdown_by_sum_of_metadata_field:
the aggregation result on success, nothing when an HTTPException was
raised. -/
def breakdownRows (out : Pipeline × Except HErr (List BVal)) : List BVal :=
  match out.2 with
  | .ok rows => rows
  | .error _ => []

/-! ## metadata.py: calculate_top10_percent post-aggregation logic -/

/-- The single document produced by the $facet stage of
calculate_top10_percent: the totalKeyCount sub-pipeline result (a list
of count values) and the sortedData sub-pipeline result, keeping for
each document its metadataValueCount value. -/
structure Top10Facet where
  totalKeyCount : List Nat
  sortedData : List Nat
deriving DecidableEq

/-- ten_percent_index (metadata.py lines 82-84):
max(int(total_users * 0.1) - 1, 0).  Python float multiplication and
int() truncation are modelled by exact arithmetic: int(n * 0.1) is
n / 10 (floor).  The bound int(n * 0.1) <= n used by the theorems below
also holds for the floating-point computation, since n * 0.1 <= n for
every nonnegative float product. -/
def ten_percent_index (total_users : Nat) : Int :=
  max ((total_users : Int) / 10 - 1) 0

/-- The post-aggregation logic of calculate_top10_percent (metadata.py
lines 77-101), applied to the aggregation result (a list of facet
documents; the pipeline produces exactly one). -/
def calculate_top10_percent_result (result : List Top10Facet) : Except HErr Nat :=
  match result with
  | [] => .error (404, "No data found")
  | facet :: _ =>
    match facet.totalKeyCount with
    | [] => .error (404, "No data found")
    | total_users :: _ =>
      let idx := ten_percent_index total_users
      if h : idx.toNat < facet.sortedData.length then
        .ok (facet.sortedData.get ⟨idx.toNat, h⟩)
      else
        .ok 0

/-! ## metadata.py: execution model of the user metadata rollup

The fetch_user_metadata pipeline is also given an executable semantics
over explicit task and session documents, stage by stage, to settle
claims about the records it produces. -/

/-- An event document as stored inside a task document. -/
structure EventDoc where
  id : String
  event_name : String
  removed : Bool
deriving DecidableEq

/-- A session document (collection "sessions"). -/
structure SessionDoc where
  id : String
  session_length : Int
deriving DecidableEq

/-- A task document (collection "tasks"), restricted to the fields the
rollup pipeline reads.  user_id is metadata.user_id (none when missing
or null); total_tokens is metadata.total_tokens (none when missing). -/
structure TaskDoc where
  id : String
  project_id : String
  user_id : Option String
  flag : Option String
  total_tokens : Option Int
  session_id : String
  events : List EventDoc
deriving DecidableEq

/-- The record shape produced by the final $project stage of
fetch_user_metadata, matching the UserMetadata model listed in its doc
string. -/
structure UserMetadata where
  user_id : Option String
  nb_tasks : Nat
  avg_success_rate : ℚ
  avg_session_length : ℚ
  events : List EventDoc
  tasks_id : List String
  sessions : List SessionDoc
  total_tokens : Int
deriving DecidableEq

/-- MongoDB $avg over a list of numeric values (0 for the empty list,
where $avg yields null). -/
def mongoAvg (l : List ℚ) : ℚ := l.sum / l.length

/-- The is_success value of the $set stage: 1 when flag equals
"success", else 0. -/
def isSuccessVal (t : TaskDoc) : ℚ := if t.flag = some "success" then 1 else 0

/-- The metadata.total_tokens value after the $set stage: 0 when the
field is missing. -/
def totalTokensVal (t : TaskDoc) : Int := t.total_tokens.getD 0

/-- The $reduce / $concatArrays / $cond / $in expression of the
deduplication stage (see dedupReduceExpr): fold over the list, keeping
an element only when its key is not among the keys of the already
accumulated elements. -/
def dedupByKey {α β : Type} [DecidableEq β] (key : α → β) (l : List α) : List α :=
  l.foldl (fun acc x => if key x ∈ acc.map key then acc else acc ++ [x]) []

/-- The $reduce / $setUnion stage merging the per-task event arrays into
one duplicate-free array ($setUnion returns the distinct union; its
ordering is unspecified, modelled here with List.dedup). -/
def setUnionFold (evss : List (List EventDoc)) : List EventDoc :=
  evss.foldl (fun acc evs => (acc ++ evs).dedup) []

/-- One output document of the $group / $lookup / dedup / $project
chain of fetch_user_metadata, for the group key k over the matched
tasks ts and the sessions collection. -/
def rollupUserDoc (sessions : List SessionDoc) (ts : List TaskDoc)
    (k : Option String) : UserMetadata :=
  let g := ts.filter (fun t => t.user_id == k)
  let looked := sessions.filter (fun s => decide (s.id ∈ g.map TaskDoc.session_id))
  let evs := dedupByKey EventDoc.event_name (setUnionFold (g.map TaskDoc.events))
  let sess := dedupByKey SessionDoc.id looked
  { user_id := k,
    nb_tasks := g.length,
    avg_success_rate := mongoAvg (g.map isSuccessVal),
    avg_session_length := mongoAvg (sess.map (fun s => (s.session_length : ℚ))),
    events := evs,
    tasks_id := g.map TaskDoc.id,
    sessions := sess,
    total_tokens := (g.map totalTokensVal).sum }

/-- The ascending BSON order on user_id values used by the final $sort
stage (null sorts before every string). -/
def userIdLe : Option String → Option String → Prop
  | none, _ => True
  | some _, none => False
  | some a, some b => a ≤ b

instance : DecidableRel userIdLe := fun a b => by
  cases a <;> cases b <;> simp [userIdLe] <;> infer_instance

/-- The $sort {user_id: 1} order on rollup output records. -/
def userMetadataLe (a b : UserMetadata) : Prop := userIdLe a.user_id b.user_id

instance : DecidableRel userMetadataLe := fun a b => by
  unfold userMetadataLe; infer_instance

instance : IsTotal UserMetadata userMetadataLe :=
  ⟨by
    intro a b
    unfold userMetadataLe
    cases a.user_id <;> cases b.user_id <;> simp [userIdLe]
    exact le_total _ _⟩

instance : IsTrans UserMetadata userMetadataLe :=
  ⟨by
    intro a b c hab hbc
    unfold userMetadataLe at *
    cases ha : a.user_id <;> cases hb : b.user_id <;> cases hc : c.user_id <;>
      simp_all [userIdLe]
    exact le_trans hab hbc⟩

/-- Execution model of fetch_user_metadata (metadata.py lines 151-316)
over a tasks collection and a sessions collection: the initial $match
(by project and optionally by user), the grouping by metadata.user_id,
the session lookup, the two deduplications, the projection and the
final ascending sort by user_id; then the 404 check of line 310. -/
def fetch_user_metadata
    (project_id : String) (user_id : Option String)
    (tasks : List TaskDoc) (sessions : List SessionDoc) :
    Except HErr (List UserMetadata) :=
  let matched := match user_id with
    | some uid =>
      tasks.filter (fun (t : TaskDoc) =>
        t.project_id == project_id && t.user_id == some uid)
    | none =>
      tasks.filter (fun (t : TaskDoc) =>
        t.project_id == project_id && t.user_id != none)
  let keys := (matched.map TaskDoc.user_id).dedup
  let grouped := keys.map (rollupUserDoc sessions matched)
  let users := List.insertionSort userMetadataLe grouped
  if user_id ≠ none ∧ users.length = 0 then
    .error (404, "No user found")
  else
    .ok users

/-! ## Route handler models

External calls (auth provider, database, billing, AI hub, file parsing)
are passed in as parameters.  The externally visible actions a handler
takes beyond its HTTP response are collected in an effect list, in the
order the handler performs them. -/

/-- Externally visible handler actions. -/
inductive BackendEffect where
  | fetchRecipe (event_id : String)
  | dispatchBackground (taskName : String)
  | generateEmbedding
  | meterBilling
  | billOnStripe (nb_credits_used : Nat)
  | runClustering
deriving DecidableEq

/-- A handler outcome: the effects performed, and either an
HTTPException or the JSON response body (a document). -/
abbrev HandlerResult := List BackendEffect × Except HErr (List (String × BVal))

/-- Python truthiness of an optional string: None and the empty string
are falsy. -/
def pyTruthy : Option String → Bool
  | none => false
  | some s => s != ""

/-- The customer_id extraction shared by post_backfill_event
(events.py lines 36-40) and post_embeddings (embeddings.py lines
33-40): None, unless "customer_id" is a key of the organization
metadata, in which case its value. -/
def orgCustomerId (org_metadata : List (String × Option String)) : Option String :=
  if (org_metadata.map Prod.fst).contains "customer_id" then
    (org_metadata.lookup "customer_id").getD none
  else none

/-- The 402 detail string of the billing gate (events.py line 45,
embeddings.py line 49). -/
def paymentRequiredDetail : String :=
  "You need to add a payment method to access this service. Please update your payment details: https://platform.phospho.ai/org/settings/billing"

/-- EventBackfillRequest, as read by post_backfill_event.  The
timestamps are modelled as integers, so the round() calls of events.py
lines 48-55 are the identity. -/
structure EventBackfillRequest where
  event_id : String
  created_at_start : Option Int
  created_at_end : Option Int
  sample_rate : Option ℚ
deriving DecidableEq

/-- post_backfill_event (events.py lines 25-72).  org_id is the result
of the access check, org_metadata the metadata of the fetched
organization, phospho_org_id is config.PHOSPHO_ORG_ID. -/
def post_backfill_event (org_id phospho_org_id : String)
    (org_metadata : List (String × Option String))
    (req : EventBackfillRequest) : HandlerResult :=
  let customer_id := orgCustomerId org_metadata
  if ¬ pyTruthy customer_id ∧ org_id ≠ phospho_org_id then
    ([], .error (402, paymentRequiredDetail))
  else
    ([.fetchRecipe req.event_id,
      .dispatchBackground "run_recipe_on_tasks_batched"],
     .ok [("status", .str "ok")])

/-- EmbeddingRequest, as read by post_embeddings: the input is a string
or a list of strings, plus the requested model name. -/
structure EmbeddingRequest where
  input : String ⊕ List String
  model : String
  project_id : Option String

/-- The input normalization of post_embeddings (embeddings.py lines
59-69): a list input of length > 1 is rejected with a 400; a singleton
list is unwrapped.  An empty list would raise an uncaught IndexError at
request_body.input[0], modelled as a 500. -/
def embeddingInput : String ⊕ List String → Except HErr String
  | .inl s => .ok s
  | .inr l =>
    if l.length > 1 then
      .error (400, "Only one string is allowed in the input list for now.")
    else
      match l.head? with
      | some s => .ok s
      | none => .error (500, "IndexError")

/-- The OpenAI-compatible response built by post_embeddings
(embeddings.py lines 98-105); the embedding vector is kept abstract as
a BVal. -/
def embeddingResponse (modelName : String) (embeddings : BVal)
    (inputs_token_count : Nat) : List (String × BVal) :=
  [ ("model", .str modelName),
    ("data", .arr [.doc [("embedding", embeddings), ("index", .int 0)]]),
    ("usage", .doc
      [ ("prompt_tokens", .int inputs_token_count),
        ("total_tokens", .int inputs_token_count) ]) ]

/-- post_embeddings (embeddings.py lines 28-119).  environment is
config.ENVIRONMENT, encode is the tiktoken cl100k_base encoder, and
generated is the result of the external generate_embeddings call (none
when it returns None). -/
def post_embeddings (environment org_id phospho_org_id : String)
    (org_metadata : List (String × Option String))
    (req : EmbeddingRequest)
    (encode : String → List Nat)
    (generated : Option BVal) : HandlerResult :=
  let customer_id := orgCustomerId org_metadata
  if ¬ pyTruthy customer_id ∧ org_id ≠ phospho_org_id ∧ environment ≠ "test" then
    ([], .error (402, paymentRequiredDetail))
  else if req.model ≠ "intent-embed" then
    ([], .error (400,
      "Model not supported. Only \x27intent-embed\x27 is supported for now."))
  else
    match embeddingInput req.input with
    | .error e => ([], .error e)
    | .ok input =>
      let inputs_token_count := (encode input).length
      if inputs_token_count > 15 * 1000 then
        ([], .error (400,
          "Input token count is too high. Maximum allowed is 15k tokens."))
      else
        match generated with
        | none =>
          ([.generateEmbedding],
           .error (500, "Failed to generate embeddings for the request."))
        | some embeddings =>
          let billing :=
            if org_id ≠ phospho_org_id ∧ environment = "production" then
              [BackendEffect.meterBilling]
            else []
          ([BackendEffect.generateEmbedding] ++ billing,
           .ok (embeddingResponse req.model embeddings inputs_token_count))

/-- The organization plan document returned by get_quota, as read by
post_detect_clusters and connect_langsmith via .get(...). -/
structure OrgPlan where
  plan : Option String
  current_usage : Option Nat
  max_usage : Option Nat
deriving DecidableEq

/-- DetectClustersRequest, as read by post_detect_clusters (the
timestamp conversion of explore.py lines 383-388 only reshapes the
filters and is modelled as the identity on integer timestamps). -/
structure DetectClustersRequest where
  limit : Nat
  filters : ProjectDataFilters
deriving DecidableEq

/-- post_detect_clusters (explore.py lines 366-415).
plan_hobby_max_nb_detections is config.PLAN_HOBBY_MAX_NB_DETECTIONS,
total_nb_tasks the result of get_total_nb_of_tasks (0 and None are both
falsy at line 391). -/
def post_detect_clusters (org_id : String)
    (org_plan : OrgPlan) (plan_hobby_max_nb_detections : Nat)
    (query : DetectClustersRequest)
    (total_nb_tasks : Option Nat) : HandlerResult :=
  let current_usage := org_plan.current_usage.getD 0
  let max_usage := org_plan.max_usage.getD plan_hobby_max_nb_detections
  match total_nb_tasks with
  | some n =>
    if n = 0 then ([], .error (404, "No tasks found in the project."))
    else
      let clustering_sample_size := min n query.limit
      if (org_plan.plan = some "hobby" ∨ org_plan.plan = none) ∧
          current_usage + clustering_sample_size ≥ max_usage then
        ([], .error (403,
          "Payment details required to run the cluster detection algorithm."))
      else
        ([.billOnStripe (clustering_sample_size * 2), .runClustering],
         .ok [("status", .str "ok")])
  | none => ([], .error (404, "No tasks found in the project."))

/-- email_tasks (projects.py lines 303-317): dispatches the email
export in the background and returns the status document. -/
def email_tasks (project_id : String) : HandlerResult :=
  ([.dispatchBackground "email_project_tasks"], .ok [("status", .str "ok")])

/-- The parsed spreadsheet of post_upload_tasks: its column names and
its number of rows (tasks_df.shape[0]). -/
structure TasksDataFrame where
  columns : List String
  num_rows : Nat
deriving DecidableEq

/-- post_upload_tasks (projects.py lines 401-473).  parse models
pd.read_csv / pd.read_excel: an error message when parsing raises, else
the dataframe. -/
def post_upload_tasks (project_id : String) (filename : String)
    (parse : Except String TasksDataFrame) : HandlerResult :=
  if filename = "" then
    ([], .error (400, "Error: No file provided."))
  else
    -- file_extension = file.filename.split(".")[-1]
    let file_extension := (pySplit filename '.').getLastD ""
    if file_extension ∉ ["csv", "xlsx"] then
      ([], .error (400,
        "Error: The extension " ++ file_extension ++
          " is not supported (supported: [\x27csv\x27, \x27xlsx\x27])."))
    else
      match parse with
      | .error e =>
        ([], .error (400, "Error: Could not read the file content. " ++ e))
      | .ok df =>
        -- tasks_df.columns = tasks_df.columns.str.strip().str.lower()
        let cols := df.columns.map (fun c => pyLower (pyStrip c))
        -- missing_columns = set(required_columns) - set(tasks_df.columns)
        let missing := (["input", "output"].filter (fun c => c ∉ cols))
        if missing ≠ [] then
          ([], .error (400, "Error: Missing columns: " ++ String.intercalate ", " missing))
        else
          ([.dispatchBackground "process_file_upload_into_log_events"],
           .ok [("status", .str "ok"), ("num_rows", .int df.num_rows)])

/-- connect_langsmith (projects.py lines 480-521).  connection models
the Langsmith client connection test of the try block (lines 494-503);
org_plan the get_quota result. -/
def connect_langsmith (project_id : String)
    (connection : Except String Unit)
    (org_plan : OrgPlan) (plan_hobby_max_nb_detections : Nat) : HandlerResult :=
  match connection with
  | .error e =>
    ([], .error (400, "Error: Could not connect to Langsmith. " ++ e))
  | .ok _ =>
    let current_usage := org_plan.current_usage.getD 0
    let max_usage := org_plan.max_usage.getD plan_hobby_max_nb_detections
    ([.dispatchBackground "collect_langsmith_data"],
     .ok [("status", .str "ok"),
          ("message", .str "Langsmith connected successfully.")])

/-! ## Client SDK: phospho/tasks.py -/

/-- The client SDK Task object: the wrapped client, the task id and the
cached content (None until fetched).  The content payload is kept
abstract as a BVal (the TaskModel parse of the constructor is the
identity on the payload). -/
structure SDKTask where
  client : String
  task_id : String
  content : Option BVal

/-- Task.update (tasks.py lines 52-72).  The HTTP POST is external: its
JSON response is the server_response parameter.  The method body reads
self._client and self._task_id, assigns no attribute of self, and
returns a freshly constructed Task; the embedding therefore returns the
receiver state after the call together with the fresh Task. -/
def SDKTask.update (self : SDKTask) (server_response : BVal) :
    SDKTask × SDKTask :=
  (self,
   { client := self.client, task_id := self.task_id,
     content := some server_response })

/-! ## Concrete sample data, used to evaluate the rollup model -/

/-- Two events with the same event_name and a third with another name. -/
def sampleEvent1 : EventDoc := ⟨"ev1", "click", false⟩

def sampleEvent2 : EventDoc := ⟨"ev2", "click", false⟩

def sampleEvent3 : EventDoc := ⟨"ev3", "buy", false⟩

/-- A task of project "p" for end-user "u" with a duplicated event
name. -/
def sampleTask : TaskDoc :=
  ⟨"t1", "p", some "u", some "success", some 3, "s1",
   [sampleEvent1, sampleEvent2, sampleEvent3]⟩

def sampleSession : SessionDoc := ⟨"s1", 2⟩

/-- The rollup output on the sample data. -/
def sampleRollup : List UserMetadata :=
  match fetch_user_metadata "p" none [sampleTask] [sampleSession] with
  | .ok us => us
  | .error _ => []

/-! ## Theorems -/

/-- The key-deduplicating fold keeps at most one element per key: the
keys of its output are pairwise distinct. -/
theorem dedupByKey_map_nodup {α β : Type} [DecidableEq β] (key : α → β)
    (l : List α) : ((dedupByKey key l).map key).Nodup := by
  have h : ∀ acc : List α, (acc.map key).Nodup →
      ((l.foldl
        (fun acc x => if key x ∈ acc.map key then acc else acc ++ [x])
        acc).map key).Nodup := by
    induction l with
    | nil => intro acc hacc; simpa using hacc
    | cons x xs ih =>
      intro acc hacc
      simp only [List.foldl_cons]
      by_cases hx : key x ∈ acc.map key
      · rw [if_pos hx]; exact ih acc hacc
      · rw [if_neg hx]
        refine ih (acc ++ [x]) ?_
        simp [List.nodup_append, hacc, hx]
  simpa [dedupByKey] using h [] (by simp)

/-- Claim C10: Task.update never mutates the receiver: the receiver
state after the call is unchanged (same task id, same cached content),
and the returned Task is a fresh object with the same task id whose
content is the parse of the server response. -/
theorem sdk_task_update_no_mutation :
    ∀ (t : SDKTask) (server_response : BVal),
      (t.update server_response).1 = t ∧
      (t.update server_response).2.task_id = t.task_id ∧
      (t.update server_response).2.content = some server_response :=
  fun _ _ => ⟨rfl, rfl, rfl⟩

/-- Claim C3 (code evaluated at the failing input): for project "p",
collection_name "sessions" and metadata_field "session_length",
calculate_bottom10_percent groups by the fixed key "$metadata.user_id"
and aggregates the fixed collection "tasks", while the mirrored
calculate_top10_percent groups by "$metadata.session_length" on the
given collection. -/
theorem bottom10_fixed_group_and_collection :
    groupKeyOf (calculate_bottom10_percent_pipeline "p" "session_length")
      = some (BVal.str "$metadata.user_id") ∧
    groupKeyOf (calculate_top10_percent_pipeline "p" "session_length")
      = some (BVal.str "$metadata.session_length") ∧
    calculate_bottom10_percent_collection "sessions" = "tasks" ∧
    calculate_top10_percent_collection "sessions" = "sessions" ∧
    "$metadata.user_id" ≠ "$metadata.session_length" ∧
    ("tasks" : String) ≠ "sessions" :=
  ⟨rfl, rfl, rfl, rfl, by decide, by decide⟩

/-- Claim C9: the rows surfaced by breakdown_by_sum_of_metadata_field
are read with .to_list(length=200), so at most 200 breakdown rows are
returned, whatever the database holds. -/
theorem breakdown_result_at_most_200 :
    ∀ (project_id metric metadata_field : String)
      (number_metadata_fields category_metadata_fields : List String)
      (breakdown_by : Option String) (filters0 : Option ProjectDataFilters)
      (dbEval : Pipeline → List BVal),
      (breakdownRows (breakdown_by_sum_of_metadata_field project_id metric
        metadata_field number_metadata_fields category_metadata_fields
        breakdown_by filters0 dbEval)).length ≤ 200 := by
  intro pid metric field nums cats b f0 dbEval
  unfold breakdown_by_sum_of_metadata_field
  dsimp only
  split
  · simp [breakdownRows]
  · split
    · simp [breakdownRows]
    · simp only [breakdownRows, List.length_take]
      omega

/-- Claim C7: on the hobby (or unset) plan, when current usage plus the
clustering sample size min(total task count, requested limit) reaches
the max usage, post_detect_clusters rejects with the payment-details
403 error, performing no billing and no clustering. -/
theorem detect_clusters_hobby_quota_gate :
    ∀ (org_id : String) (org_plan : OrgPlan)
      (plan_hobby_max_nb_detections : Nat)
      (query : DetectClustersRequest) (n : Nat),
      (org_plan.plan = some "hobby" ∨ org_plan.plan = none) →
      0 < n →
      org_plan.max_usage.getD plan_hobby_max_nb_detections ≤
        org_plan.current_usage.getD 0 + min n query.limit →
      post_detect_clusters org_id org_plan plan_hobby_max_nb_detections
          query (some n)
        = ([], .error (403,
            "Payment details required to run the cluster detection algorithm.")) := by
  intro org_id plan maxH q n hplan hn hq
  unfold post_detect_clusters
  dsimp only
  rw [if_neg (by omega)]
  rw [if_pos ⟨hplan, hq⟩]

/-- Witness for C7: a hobby organization at usage 10 of 10 requesting a
clustering of sample size min(3, 5) = 3 is rejected. -/
theorem detect_clusters_hobby_quota_gate_witness :
    post_detect_clusters "org_a" ⟨some "hobby", some 10, some 10⟩ 1000
        ⟨5, ⟨none, none⟩⟩ (some 3)
      = ([], .error (403,
          "Payment details required to run the cluster detection algorithm.")) :=
  detect_clusters_hobby_quota_gate "org_a" ⟨some "hobby", some 10, some 10⟩
    1000 ⟨5, ⟨none, none⟩⟩ 3 (Or.inl rfl) (by decide) (by decide)

/-- Claim C2: when the organization metadata holds no non-empty
customer_id and the organization is not the phospho organization (and,
for embeddings, the environment is not "test"), both handlers reject
with the 402 payment-required error, with no recipe fetch, no
background dispatch and no embedding generation (the effect list is
empty). -/
theorem billing_gate_rejects_before_work :
    ∀ (org_id phospho_org_id environment : String)
      (org_metadata : List (String × Option String))
      (req : EventBackfillRequest) (ereq : EmbeddingRequest)
      (encode : String → List Nat) (generated : Option BVal),
      pyTruthy (orgCustomerId org_metadata) = false →
      org_id ≠ phospho_org_id →
      environment ≠ "test" →
      post_backfill_event org_id phospho_org_id org_metadata req
        = ([], .error (402, paymentRequiredDetail)) ∧
      post_embeddings environment org_id phospho_org_id org_metadata
          ereq encode generated
        = ([], .error (402, paymentRequiredDetail)) := by
  intro o p e meta req ereq enc gen hc ho he
  constructor
  · unfold post_backfill_event
    rw [if_pos ⟨by simp [hc], ho⟩]
  · unfold post_embeddings
    rw [if_pos ⟨by simp [hc], ho, he⟩]

/-- The main filter of breakdown_by_sum_of_metadata_field always
contains the project_id constraint. -/
theorem breakdownMainFilter_mem_project (project_id : String)
    (filters : ProjectDataFilters) :
    ("project_id", BVal.str project_id) ∈ breakdownMainFilter project_id filters := by
  unfold breakdownMainFilter
  simp

/-- Whatever the arguments and the outcome, the pipeline built by
breakdown_by_sum_of_metadata_field starts with the $match stage on the
main filter. -/
theorem breakdown_fst_head (project_id metric metadata_field : String)
    (number_metadata_fields category_metadata_fields : List String)
    (breakdown_by : Option String) (filters0 : Option ProjectDataFilters)
    (dbEval : Pipeline → List BVal) :
    ((breakdown_by_sum_of_metadata_field project_id metric metadata_field
        number_metadata_fields category_metadata_fields breakdown_by filters0
        dbEval).1).head?
      = some (.doc [("$match",
          .doc (breakdownMainFilter project_id (effectiveFilters filters0)))]) := by
  unfold breakdown_by_sum_of_metadata_field
  dsimp only
  split
  · simp
  · split
    · simp
    · simp

/-- Witness for C2: an organization with empty metadata, distinct from
the phospho organization, in the production environment. -/
theorem billing_gate_rejects_before_work_witness :
    post_backfill_event "org_a" "org_phospho" [] ⟨"event_1", none, none, none⟩
      = ([], .error (402, paymentRequiredDetail)) ∧
    post_embeddings "production" "org_a" "org_phospho" []
        ⟨Sum.inl "hello", "intent-embed", none⟩ (fun _ => []) none
      = ([], .error (402, paymentRequiredDetail)) :=
  billing_gate_rejects_before_work "org_a" "org_phospho" "production" []
    ⟨"event_1", none, none, none⟩ ⟨Sum.inl "hello", "intent-embed", none⟩
    (fun _ => []) none (by decide) (by decide) (by decide)

/-- Claim C1: every aggregation pipeline built by the metadata service
(average-for-metadata, top and bottom 10 percent, unique metadata
fields, user metadata rollup, metadata breakdown) has as its first
stage a $match filter on the owning project id, for every combination
of arguments. -/
theorem aggregation_pipelines_filter_project_first :
    ∀ (project_id metadata_field : String) (mtype : MetadataType)
      (user_id : Option String) (metric breakdown_field : String)
      (number_metadata_fields category_metadata_fields : List String)
      (breakdown_by : Option String) (filters0 : Option ProjectDataFilters)
      (dbEval : Pipeline → List BVal),
      firstStageMatchesProject
        (calculate_average_for_metadata_pipeline project_id metadata_field)
        project_id ∧
      firstStageMatchesProject
        (calculate_top10_percent_pipeline project_id metadata_field)
        project_id ∧
      firstStageMatchesProject
        (calculate_bottom10_percent_pipeline project_id metadata_field)
        project_id ∧
      firstStageMatchesProject
        (build_unique_metadata_fields_pipeline project_id mtype) project_id ∧
      firstStageMatchesProject
        (fetch_user_metadata_pipeline project_id user_id) project_id ∧
      firstStageMatchesProject
        (breakdown_by_sum_of_metadata_field project_id metric breakdown_field
          number_metadata_fields category_metadata_fields breakdown_by
          filters0 dbEval).1 project_id := by
  intro pid mfield mtype uid metric bfield nums cats b f0 db
  refine ⟨⟨_, rfl, by simp⟩, ⟨_, rfl, by simp⟩, ⟨_, rfl, by simp⟩, ?_, ?_, ?_⟩
  · cases mtype <;> exact ⟨_, rfl, by simp⟩
  · cases uid <;> exact ⟨_, rfl, by simp⟩
  · exact ⟨_, breakdown_fst_head pid metric bfield nums cats b f0 db,
      breakdownMainFilter_mem_project pid (effectiveFilters f0)⟩

/-- Claim C8: whenever the aggregation result of calculate_top10_percent
is a single facet with a positive total equal to the length of
sortedData, the computed index is in bounds, so the fallback branch
returning 0 is unreachable and the function returns the count stored at
that index. -/
theorem top10_percent_index_in_bounds :
    ∀ (total_users : Nat) (sortedData : List Nat),
      0 < total_users → total_users = sortedData.length →
      0 ≤ ten_percent_index total_users ∧
      (ten_percent_index total_users).toNat < sortedData.length ∧
      calculate_top10_percent_result [⟨[total_users], sortedData⟩]
        = .ok (sortedData.getD (ten_percent_index total_users).toNat 0) := by
  intro t sd ht hlen
  have hb : (ten_percent_index t).toNat < sd.length := by
    unfold ten_percent_index
    omega
  refine ⟨le_max_right _ _, hb, ?_⟩
  unfold calculate_top10_percent_result
  dsimp only
  rw [dif_pos hb]
  congr 1
  rw [List.getD_eq_getElem?_getD, List.getElem?_eq_getElem hb]
  rfl

/-- Witness for C8: three grouped values with counts [5, 4, 3]: the
index is max(0 - 1, 0) = 0 and the function returns 5. -/
theorem top10_percent_index_in_bounds_witness :
    0 < 3 ∧ 3 = ([5, 4, 3] : List Nat).length ∧
    (0 ≤ ten_percent_index 3 ∧
      (ten_percent_index 3).toNat < ([5, 4, 3] : List Nat).length ∧
      calculate_top10_percent_result [⟨[3], [5, 4, 3]⟩]
        = .ok (([5, 4, 3] : List Nat).getD (ten_percent_index 3).toNat 0)) :=
  ⟨by decide, by decide,
    top10_percent_index_in_bounds 3 [5, 4, 3] (by decide) (by decide)⟩

/-- Counterexample for C4 as stated: a successful csv upload of 7 rows
answers {"status": "ok", "num_rows": 7}, not exactly {"status": "ok"}. -/
theorem upload_tasks_response_has_extra_field :
    (post_upload_tasks "p" "tasks.csv"
        (.ok ⟨["input", "output"], 7⟩)).2
      ≠ .ok [("status", BVal.str "ok")] := by
  have h : (post_upload_tasks "p" "tasks.csv"
        (.ok ⟨["input", "output"], 7⟩)).2
      = .ok [("status", BVal.str "ok"), ("num_rows", BVal.int 7)] := rfl
  rw [h]
  simp

/-- Claim C4 (amended): the bulk event backfill and the email export
answer exactly {"status": "ok"}; the task file upload additionally
returns the row count under "num_rows", and the Langsmith import
additionally returns a fixed confirmation "message". -/
theorem background_dispatch_status_ok_responses :
    ∀ (org_id phospho_org_id : String)
      (org_metadata : List (String × Option String))
      (req : EventBackfillRequest) (project_id filename : String)
      (parse : Except String TasksDataFrame)
      (connection : Except String Unit) (org_plan : OrgPlan)
      (plan_hobby_max_nb_detections : Nat) (r : List (String × BVal)),
      ((post_backfill_event org_id phospho_org_id org_metadata req).2 = .ok r →
        r = [("status", .str "ok")]) ∧
      ((email_tasks project_id).2 = .ok r → r = [("status", .str "ok")]) ∧
      ((post_upload_tasks project_id filename parse).2 = .ok r →
        ∃ n : Int, r = [("status", .str "ok"), ("num_rows", .int n)]) ∧
      ((connect_langsmith project_id connection org_plan
          plan_hobby_max_nb_detections).2 = .ok r →
        r = [("status", .str "ok"),
             ("message", .str "Langsmith connected successfully.")]) := by
  intro o p meta req pid fname parse conn plan maxH r
  refine ⟨?_, ?_, ?_, ?_⟩
  · intro h
    unfold post_backfill_event at h
    dsimp only at h
    split at h
    · simp at h
    · simp at h
      exact h.symm
  · intro h
    unfold email_tasks at h
    simp at h
    exact h.symm
  · intro h
    unfold post_upload_tasks at h
    dsimp only at h
    split at h
    · simp at h
    · split at h
      · simp at h
      · split at h
        · simp at h
        · split at h
          · simp at h
          · simp at h
            exact ⟨_, h.symm⟩
  · intro h
    unfold connect_langsmith at h
    split at h
    · simp at h
    · simp at h
      exact h.symm

/-- Witness for C4 (amended): the sample upload of 7 rows matches the
num_rows response shape. -/
theorem background_dispatch_status_ok_responses_witness :
    ∃ n : Int,
      ([("status", BVal.str "ok"), ("num_rows", BVal.int 7)] :
          List (String × BVal))
        = [("status", BVal.str "ok"), ("num_rows", BVal.int n)] :=
  (background_dispatch_status_ok_responses "o" "p" [] ⟨"e", none, none, none⟩
    "proj" "tasks.csv" (.ok ⟨["input", "output"], 7⟩) (.ok ())
    ⟨none, none, none⟩ 0
    [("status", BVal.str "ok"), ("num_rows", BVal.int 7)]).2.2.1 rfl

/-- Claim C5: breakdown_by_sum_of_metadata_field raises an HTTP 400
error exactly when the lowercased metric is "sum" or "avg" and the
metadata_field is not among the number metadata fields; every raised
error is a 400; and for a field among the number metadata fields no
error is raised and (for "sum") the sum grouping stage is part of the
built pipeline. -/
theorem breakdown_sum_avg_error_iff :
    ∀ (project_id metric metadata_field : String)
      (number_metadata_fields category_metadata_fields : List String)
      (breakdown_by : Option String) (filters0 : Option ProjectDataFilters)
      (dbEval : Pipeline → List BVal),
      ((∃ d, (breakdown_by_sum_of_metadata_field project_id metric
          metadata_field number_metadata_fields category_metadata_fields
          breakdown_by filters0 dbEval).2 = .error (400, d)) ↔
        ((pyLower metric = "sum" ∨ pyLower metric = "avg") ∧
          metadata_field ∉ number_metadata_fields)) ∧
      (∀ e, (breakdown_by_sum_of_metadata_field project_id metric
          metadata_field number_metadata_fields category_metadata_fields
          breakdown_by filters0 dbEval).2 = .error e → e.1 = 400) ∧
      (metadata_field ∈ number_metadata_fields →
        ∃ rows, (breakdown_by_sum_of_metadata_field project_id metric
          metadata_field number_metadata_fields category_metadata_fields
          breakdown_by filters0 dbEval).2 = .ok rows) ∧
      (pyLower metric = "sum" → metadata_field ∈ number_metadata_fields →
        BVal.doc [("$group", .doc
          [ ("_id", .str ("$" ++
              breakdownFinalCol breakdown_by category_metadata_fields)),
            (metric ++ metadata_field, .doc
              [("$sum", .str ("$metadata." ++ metadata_field))]) ])]
          ∈ (breakdown_by_sum_of_metadata_field project_id metric
              metadata_field number_metadata_fields category_metadata_fields
              breakdown_by filters0 dbEval).1) := by
  intro pid metric field nums cats b f0 db
  unfold breakdown_by_sum_of_metadata_field
  dsimp only
  by_cases hs : pyLower metric = "sum" ∧ field ∉ nums
  · rw [if_pos hs]
    refine ⟨?_, ?_, ?_, ?_⟩
    · simp [hs.1, hs.2]
    · intro e he
      simp only [Except.error.injEq] at he
      rw [← he]
    · intro hin
      exact absurd hin hs.2
    · intro _ hin
      exact absurd hin hs.2
  · rw [if_neg hs]
    by_cases ha : pyLower metric = "avg" ∧ field ∉ nums
    · rw [if_pos ha]
      refine ⟨?_, ?_, ?_, ?_⟩
      · simp [ha.1, ha.2]
      · intro e he
        simp only [Except.error.injEq] at he
        rw [← he]
      · intro hin
        exact absurd hin ha.2
      · intro hsum hin
        exact absurd hin ha.2
    · rw [if_neg ha]
      refine ⟨?_, ?_, ?_, ?_⟩
      · constructor
        · rintro ⟨d, hd⟩
          simp at hd
        · rintro ⟨hor, hnotin⟩
          rcases hor with h | h
          · exact absurd ⟨h, hnotin⟩ hs
          · exact absurd ⟨h, hnotin⟩ ha
      · intro e he
        simp at he
      · intro _
        exact ⟨_, rfl⟩
      · intro hsum _
        rw [if_pos hsum]
        simp [List.mem_append]

/-- Witness for C5: metric "Avg" on a field that is not numeric is
rejected with a 400. -/
theorem breakdown_sum_avg_error_iff_witness :
    ∃ d, (breakdown_by_sum_of_metadata_field "p" "Avg" "f" [] [] none none
        (fun _ => [])).2 = .error (400, d) :=
  (breakdown_sum_avg_error_iff "p" "Avg" "f" [] [] none none
      (fun _ => [])).1.mpr ⟨Or.inr (by decide), by decide⟩

/-- Claim C6: every record produced by the user metadata rollup has at
most one event per event_name and at most one session per session id,
and the records are sorted by user_id in ascending order. -/
theorem user_rollup_dedup_and_sorted :
    ∀ (project_id : String) (user_id : Option String)
      (tasks : List TaskDoc) (sessions : List SessionDoc)
      (users : List UserMetadata),
      fetch_user_metadata project_id user_id tasks sessions = .ok users →
      (∀ u ∈ users,
        (u.events.map EventDoc.event_name).Nodup ∧
        (u.sessions.map SessionDoc.id).Nodup) ∧
      List.Sorted userMetadataLe users := by
  intro pid uid tasks sessions users h
  unfold fetch_user_metadata at h
  dsimp only at h
  split at h
  · exact absurd h (by simp)
  · simp only [Except.ok.injEq] at h
    subst h
    constructor
    · intro u hu
      rcases List.mem_map.mp ((List.perm_insertionSort _ _).subset hu) with
        ⟨k, hk, rfl⟩
      exact ⟨dedupByKey_map_nodup EventDoc.event_name _,
        dedupByKey_map_nodup SessionDoc.id _⟩
    · exact List.sorted_insertionSort _ _

/-- Witness for C6: the sample project with one task holding a
duplicated event name. -/
theorem user_rollup_dedup_and_sorted_witness :
    fetch_user_metadata "p" none [sampleTask] [sampleSession]
        = .ok sampleRollup ∧
      ((∀ u ∈ sampleRollup,
          (u.events.map EventDoc.event_name).Nodup ∧
          (u.sessions.map SessionDoc.id).Nodup) ∧
        List.Sorted userMetadataLe sampleRollup) :=
  ⟨rfl, user_rollup_dedup_and_sorted "p" none [sampleTask] [sampleSession]
    sampleRollup rfl⟩

end Phospho
